import Mathlib

/-!
Shallow embedding of `tools/media_button_simulator.py`, a PySide6 GUI that
sends media-key events to an Android device through `adb`.

The embedding models:
- the Python string operations the program uses (`str.strip`, `str.split()`
  with no argument, `str.split(sep)`, substring membership `sub in s`);
- `find_adb` and its candidate path list;
- `AdbWorker.run` as a total function from the outcome of the subprocess
  call to the list of `finished` signal emissions;
- the GUI handlers `send_key` / `on_key_sent` / `check_device` /
  `on_device_check` as pure functions on status text;
- an interleaving trace semantics for the window: user actions start
  workers, worker-finish events deliver the connected handler.
-/

namespace MediaSim

/-- Model of Python `str.strip()` on the underlying character list: drop
whitespace from the front, then from the back. -/
def stripChars (l : List Char) : List Char :=
  ((l.dropWhile Char.isWhitespace).reverse.dropWhile Char.isWhitespace).reverse

/-- Model of Python `str.strip()`. -/
def pyStrip (s : String) : String := String.mk (stripChars s.data)

/-- Split a character list at each newline, Python `str.split(sep)` style:
no collapsing of empty pieces, and the empty input gives one empty piece. -/
def splitNl : List Char → List (List Char)
  | [] => [[]]
  | c :: cs =>
    let rest := splitNl cs
    if c = '\n' then [] :: rest
    else (c :: rest.headD []) :: rest.tail

/-- Model of Python `output.split(a newline)` on strings. -/
def pyLines (s : String) : List String := (splitNl s.data).map String.mk

/-- Whether `pat` is a prefix of `l`, on character lists. -/
def isPrefixOfChars : List Char → List Char → Bool
  | [], _ => true
  | _ :: _, [] => false
  | p :: ps, c :: cs => p = c && isPrefixOfChars ps cs

/-- Whether `pat` occurs as a contiguous substring of `l`. -/
def containsSub (pat : List Char) : List Char → Bool
  | [] => isPrefixOfChars pat []
  | c :: cs => isPrefixOfChars pat (c :: cs) || containsSub pat cs

/-- Model of Python substring membership `"device" in l`. -/
def containsDevice (l : String) : Bool := containsSub "device".data l.data

/-- Model of Python `str.split()` with no argument (split on whitespace
runs, discarding empty tokens), on character lists. `acc` is the current
token, reversed. -/
def pyWordsAux : List Char → List Char → List (List Char)
  | [], acc => if acc.isEmpty then [] else [acc.reverse]
  | c :: cs, acc =>
    if c.isWhitespace then
      if acc.isEmpty then pyWordsAux cs [] else acc.reverse :: pyWordsAux cs []
    else pyWordsAux cs (c :: acc)

/-- Model of Python `str.split()` with no argument. -/
def pyWords (s : String) : List String := (pyWordsAux s.data []).map String.mk

/-- Model of `devices[0].split()[0]` - the first whitespace-separated token
of a line. The handler only evaluates it on lines with a non-whitespace
character, where the token list is nonempty (proved below). -/
def firstToken (s : String) : String := (pyWords s).headD ""

/-- Model of Windows `os.path.join(a, b)` for the components the program
joins (plain relative names, no drive-relative forms): an empty left part
contributes nothing, and a separator is inserted unless already present. -/
def ntJoin (a b : String) : String :=
  if a = "" then b
  else if a.data.getLast? = some '\x5c' then a ++ b
  else a ++ "\x5c" ++ b

/-- Variadic `os.path.join` as a left fold of the binary join. -/
def ntJoinAll (a : String) (rest : List String) : String := rest.foldl ntJoin a

/-- The `possible_paths` list of `find_adb`, source lines 17-22. `env v`
models `os.environ.get(v, given default of the empty string)`. -/
def possible_paths (env : String → String) : List String :=
  [ ntJoinAll (env "LOCALAPPDATA") ["Android", "Sdk", "platform-tools", "adb.exe"],
    ntJoinAll (env "ANDROID_HOME") ["platform-tools", "adb.exe"],
    ntJoinAll (env "ANDROID_SDK_ROOT") ["platform-tools", "adb.exe"],
    "adb" ]

/-- The loop of `find_adb` (source lines 23-26): return the first path that
is truthy (nonempty) and exists; fall back to the literal `"adb"`.
`fsExists` models `os.path.exists`. -/
def findAdbLoop (fsExists : String → Bool) : List String → String
  | [] => "adb"
  | p :: rest => if p != "" && fsExists p then p else findAdbLoop fsExists rest

/-- `find_adb` (source lines 16-26). -/
def find_adb (env : String → String) (fsExists : String → Bool) : String :=
  findAdbLoop fsExists (possible_paths env)

/-- Outcome of the `subprocess.run` call inside `AdbWorker.run`: normal
completion with a return code and captured output, or one of the exceptions
the handler distinguishes. -/
inductive ProcResult
  | completed (returncode : Int) (stdout stderr : String)
  | fileNotFound
  | timeoutExpired
  | otherError (message : String)

/-- The arguments of the single `subprocess.run` call the worker makes
(source lines 41-44): the command, `timeout=5`, `capture_output=True`. -/
structure SubprocessCall where
  command : List String
  timeoutSecs : Nat
  captureOutput : Bool

/-- The subprocess call `AdbWorker.run` issues for a given command. -/
def workerCall (command : List String) : SubprocessCall :=
  { command := command, timeoutSecs := 5, captureOutput := true }

namespace AdbWorker

/-- `AdbWorker.run` (source lines 39-54) as the list of `finished` signal
emissions it performs for a given subprocess outcome: each branch of the
Python code emits exactly once. -/
def runEmits : ProcResult → List (Bool × String)
  | .completed rc out err =>
    if rc == 0 then [(true, out)] else [(false, pyStrip err)]
  | .fileNotFound => [(false, "ADB not found!")]
  | .timeoutExpired => [(false, "Timeout - check device")]
  | .otherError e => [(false, e)]

/-- The single `(ok, message)` pair `AdbWorker.run` emits. -/
def runSignal (r : ProcResult) : Bool × String := (runEmits r).headD (false, "")

end AdbWorker

/-- The user actions of the window: the four media buttons (source lines
81-104), the three keyboard shortcuts (lines 134-136), and the
check-device button (lines 122-124). -/
inductive UserAction
  | btnPrev | btnPlay | btnNext | btnStop
  | keyLeft | keyRight | keySpace
  | btnCheck
deriving DecidableEq

/-- The `(keycode, name)` pair each action passes to `send_key`, read off
the connected lambdas (source lines 83, 88, 93, 102, 134-136); `none` for
the check-device button, which calls `check_device` instead. -/
def sendKeyArgs : UserAction → Option (String × String)
  | .btnPrev => some ("88", "PREVIOUS")
  | .btnPlay => some ("85", "PLAY_PAUSE")
  | .btnNext => some ("87", "NEXT")
  | .btnStop => some ("86", "STOP")
  | .keyLeft => some ("88", "PREVIOUS")
  | .keyRight => some ("87", "NEXT")
  | .keySpace => some ("85", "PLAY_PAUSE")
  | .btnCheck => none

/-- Every user action of the window. -/
def allActions : List UserAction :=
  [.btnPrev, .btnPlay, .btnNext, .btnStop, .keyLeft, .keyRight, .keySpace, .btnCheck]

/-- The command line the action's handler passes to `AdbWorker`:
`[ADB_PATH, "shell", "input", "keyevent", keycode]` in `send_key` (source
line 212) and `[ADB_PATH, "devices"]` in `check_device` (line 228).
`adb` stands for the module-level `ADB_PATH`. -/
def commandOf (adb : String) (a : UserAction) : List String :=
  match sendKeyArgs a with
  | some (k, _) => [adb, "shell", "input", "keyevent", k]
  | none => [adb, "devices"]

namespace MediaButtonSimulator

/-- `on_key_sent` (source lines 216-222): the status text it sets. -/
def on_key_sent (success : Bool) (name message : String) : String :=
  if success then "✅ Sent: KEYCODE_MEDIA_" ++ name
  else "❌ Error: " ++ message

/-- The filter `check_device` applies to each line after the first:
`l.strip() and "device" in l` (source line 235). -/
def devLinePred (l : String) : Bool := (pyStrip l != "") && containsDevice l

/-- `on_device_check` (source lines 232-245): the status text it sets. -/
def on_device_check (success : Bool) (output : String) : String :=
  if success then
    let lines := pyLines (pyStrip output)
    let devices := (lines.drop 1).filter devLinePred
    match devices with
    | d :: _ => "✅ Found device: " ++ firstToken d
    | [] => "❌ No device found. Enable USB debugging!"
  else "❌ Error: " ++ output

/-- The status text a user action sets immediately: `"Sending {name}..."`
in `send_key` (source line 209), `"Checking device..."` in `check_device`
(line 225). -/
def sendingText (a : UserAction) : String :=
  match sendKeyArgs a with
  | some (_, n) => "Sending " ++ n ++ "..."
  | none => "Checking device..."

/-- The status text the finished handler connected to the action's worker
sets, given the subprocess outcome: `send_key` connects
`on_key_sent(ok, name, msg)` (source line 213), `check_device` connects
`on_device_check` (line 229). -/
def handlerText (a : UserAction) (r : ProcResult) : String :=
  let s := AdbWorker.runSignal r
  match sendKeyArgs a with
  | some (_, n) => on_key_sent s.1 n s.2
  | none => on_device_check s.1 s.2

/-- State of the window: the status label text, the single `self.worker`
reference (as the index of the last started worker), the list of all
workers ever started (index order), and the indices whose `finished`
signal has been delivered. -/
structure GuiState where
  status : String
  workerRef : Option Nat
  started : List UserAction
  delivered : List Nat

/-- Initial state: the label text set at construction (source line 115)
and `self.worker = None` (line 138). -/
def initState : GuiState :=
  { status := "Ready. Connect phone via USB with debugging enabled.",
    workerRef := none, started := [], delivered := [] }

/-- Events of the interleaving semantics: a user action (button click or
shortcut), or the delivery of worker number `i`'s `finished` signal with
subprocess outcome `r`. -/
inductive Ev
  | act (a : UserAction)
  | fin (i : Nat) (r : ProcResult)

/-- One step of the window. A user action sets the sending text,
overwrites `self.worker` with a fresh worker and starts it (source lines
208-214, 224-230); nothing waits on, joins or cancels earlier workers. A
finish event for a started, not-yet-delivered worker runs the handler
connected to that worker; anything else changes nothing. -/
def step (s : GuiState) : Ev → GuiState
  | .act a =>
    { status := sendingText a, workerRef := some s.started.length,
      started := s.started ++ [a], delivered := s.delivered }
  | .fin i r =>
    if i < s.started.length ∧ i ∉ s.delivered then
      { status := handlerText (s.started.getD i .btnCheck) r,
        workerRef := s.workerRef, started := s.started,
        delivered := s.delivered ++ [i] }
    else s

/-- Run a list of events from the initial state. -/
def runTrace (evs : List Ev) : GuiState := evs.foldl step initState

/-- The non-overlapping schedule: each action's worker finishes before the
next action, `i` numbering the workers started so far. -/
def seqTrace : Nat → List (UserAction × ProcResult) → List Ev
  | _, [] => []
  | i, (a, r) :: ps => .act a :: .fin i r :: seqTrace (i + 1) ps

end MediaButtonSimulator

/-! Helper lemmas. -/

/-- The head of a filtered list is the first element satisfying the
predicate: a single linear scan. -/
theorem filter_head?_eq_find? (p : α → Bool) (l : List α) :
    (l.filter p).head? = l.find? p := by
  induction l with
  | nil => rfl
  | cons a l ih =>
    by_cases h : p a = true
    · simp [List.filter, List.find?, h]
    · simp only [Bool.not_eq_true] at h
      simp [List.filter, List.find?, h, ih]

/-- The loop of `find_adb` returns the first passing candidate, with the
literal `"adb"` as fallback. -/
theorem findAdbLoop_eq_find? (fs : String → Bool) (l : List String) :
    findAdbLoop fs l = ((l.find? (fun p => p != "" && fs p)).getD "adb") := by
  induction l with
  | nil => rfl
  | cons a l ih =>
    by_cases h : (a != "" && fs a) = true
    · simp [findAdbLoop, List.find?, h]
    · simp only [Bool.not_eq_true] at h
      simp [findAdbLoop, List.find?, h, ih]

/-- Stripping a list of whitespace characters leaves nothing. -/
theorem stripChars_eq_nil (l : List Char)
    (h : ∀ c ∈ l, c.isWhitespace = true) : stripChars l = [] := by
  have h1 : l.dropWhile Char.isWhitespace = [] := List.dropWhile_eq_nil_iff.mpr h
  simp [stripChars, h1]

/-- A nonempty accumulator guarantees at least one token. -/
theorem pyWordsAux_ne_nil_of_acc (l acc : List Char) (h : acc ≠ []) :
    pyWordsAux l acc ≠ [] := by
  induction l generalizing acc with
  | nil => simp [pyWordsAux, h]
  | cons c cs ih =>
    by_cases hw : c.isWhitespace = true
    · simp [pyWordsAux, hw, h]
    · simp only [Bool.not_eq_true] at hw
      simpa [pyWordsAux, hw] using ih (c :: acc) (by simp)

/-- A list with a non-whitespace character splits into at least one
token. -/
theorem pyWordsAux_ne_nil (l acc : List Char)
    (h : ∃ c ∈ l, c.isWhitespace = false) : pyWordsAux l acc ≠ [] := by
  induction l generalizing acc with
  | nil => simp at h
  | cons c cs ih =>
    by_cases hw : c.isWhitespace = true
    · have hcs : ∃ d ∈ cs, d.isWhitespace = false := by
        rcases h with ⟨d, hd, hdw⟩
        rcases List.mem_cons.mp hd with rfl | hmem
        · rw [hw] at hdw; cases hdw
        · exact ⟨d, hmem, hdw⟩
      by_cases ha : acc.isEmpty = true
      · simpa [pyWordsAux, hw, ha] using ih [] hcs
      · simp [pyWordsAux, hw, ha]
    · simp only [Bool.not_eq_true] at hw
      simpa [pyWordsAux, hw] using
        pyWordsAux_ne_nil_of_acc cs (c :: acc) (by simp)

/-- A line whose strip is nonempty has a non-whitespace character. -/
theorem exists_nonws_of_pyStrip_ne (s : String) (h : pyStrip s ≠ "") :
    ∃ c ∈ s.data, c.isWhitespace = false := by
  by_contra hno
  push_neg at hno
  have hall : ∀ c ∈ s.data, c.isWhitespace = true := by
    intro c hc
    have := hno c hc
    exact eq_true_of_ne_false this
  have : pyStrip s = "" := by
    simp [pyStrip, stripChars_eq_nil s.data hall]
  exact h this

/-- Appending one element and reading at the old length returns it. -/
theorem getD_concat_length (l : List α) (a d : α) :
    (l ++ [a]).getD l.length d = a := by
  induction l with
  | nil => rfl
  | cons b l ih => simp [List.getD] at ih ⊢

open MediaButtonSimulator

/-- Starting worker number `i` and then delivering its finish: the status
becomes that worker's handler text and the delivered set grows to
`range (i + 1)`. -/
theorem step_act_fin (s : GuiState) (b : UserAction) (q : ProcResult) (i : Nat)
    (h1 : s.started.length = i) (h2 : s.delivered = List.range i) :
    step (step s (.act b)) (.fin i q)
      = ⟨handlerText b q, some s.started.length, s.started ++ [b], List.range (i + 1)⟩ := by
  have hlen : i < (s.started ++ [b]).length := by simp [h1]
  have hdel : i ∉ s.delivered := by rw [h2]; simp
  simp only [step]
  rw [if_pos ⟨hlen, hdel⟩]
  have hg : (s.started ++ [b]).getD i .btnCheck = b := by
    rw [← h1]; exact getD_concat_length _ _ _
  rw [hg, h2, ← List.range_succ]

/-- Under the non-overlapping schedule, after the last worker finishes the
status is exactly that worker's handler text. -/
theorem runSeq_status (a : UserAction) (r : ProcResult) :
    ∀ (ps : List (UserAction × ProcResult)) (i : Nat) (s : GuiState),
      s.started.length = i → s.delivered = List.range i →
      (List.foldl step s (seqTrace i (ps ++ [(a, r)]))).status = handlerText a r := by
  intro ps
  induction ps with
  | nil =>
    intro i s h1 h2
    simp only [List.nil_append, seqTrace, List.foldl]
    rw [step_act_fin s a r i h1 h2]
  | cons p ps ih =>
    intro i s h1 h2
    obtain ⟨b, q⟩ := p
    simp only [List.cons_append, seqTrace, List.foldl]
    rw [step_act_fin s b q i h1 h2]
    exact ih (i + 1) _ (by simp [h1]) rfl

/-! Claim theorems. -/

/-- C1: the worker emits success carrying the stdout exactly when the
subprocess exits with return code 0, and otherwise emits failure carrying
the stripped stderr; the status label then shows the success message
containing the key name on success and the error message containing the
returned text on failure. -/
theorem claim_C1_worker_and_status (rc : Int) (out err name : String) :
    ((AdbWorker.runSignal (.completed rc out err)).1 = true ↔ rc = 0) ∧
    (rc = 0 → AdbWorker.runSignal (.completed rc out err) = (true, out) ∧
      on_key_sent true name out = "✅ Sent: KEYCODE_MEDIA_" ++ name) ∧
    (rc ≠ 0 → AdbWorker.runSignal (.completed rc out err) = (false, pyStrip err) ∧
      on_key_sent false name (pyStrip err) = "❌ Error: " ++ pyStrip err) := by
  by_cases h : rc = 0 <;>
    simp [AdbWorker.runSignal, AdbWorker.runEmits, on_key_sent, h]

/-- C1 witness: concrete instances of both branches. -/
theorem claim_C1_witness :
    (AdbWorker.runSignal (.completed 0 "ok" "") = (true, "ok") ∧
      on_key_sent true "NEXT" "ok" = "✅ Sent: KEYCODE_MEDIA_" ++ "NEXT") ∧
    (AdbWorker.runSignal (.completed 1 "" "boom") = (false, pyStrip "boom") ∧
      on_key_sent false "NEXT" (pyStrip "boom") = "❌ Error: " ++ pyStrip "boom") :=
  ⟨(claim_C1_worker_and_status 0 "ok" "" "NEXT").2.1 rfl,
   (claim_C1_worker_and_status 1 "" "boom" "NEXT").2.2 (by decide)⟩

/-- C2: on success the device-check handler scans the lines after the
first and the displayed device id is the first whitespace-separated token
of the first kept line (the first line that is non-blank and contains the
substring "device", a single linear scan); when no line is kept it reports
no device, and on failure it reports the error with the returned text.
Kept lines always have at least one token, so taking the first token is
well defined. -/
theorem claim_C2_device_scan (output : String) :
    (on_device_check false output = "❌ Error: " ++ output) ∧
    (on_device_check true output =
      match ((pyLines (pyStrip output)).drop 1).find? devLinePred with
      | some d => "✅ Found device: " ++ firstToken d
      | none => "❌ No device found. Enable USB debugging!") ∧
    (∀ d, devLinePred d = true → pyWords d ≠ []) := by
  refine ⟨rfl, ?_, ?_⟩
  · rw [← filter_head?_eq_find?]
    cases hf : ((pyLines (pyStrip output)).drop 1).filter devLinePred with
    | nil => rw [List.drop_one] at hf; simp [on_device_check, hf]
    | cons d t => rw [List.drop_one] at hf; simp [on_device_check, hf]
  · intro d hd
    have h1 : pyStrip d ≠ "" := by
      have := ((Bool.and_eq_true _ _).mp hd).1
      exact bne_iff_ne.mp this
    have h3 := pyWordsAux_ne_nil d.data [] (exists_nonws_of_pyStrip_ne d h1)
    simp only [pyWords, ne_eq, List.map_eq_nil_iff]
    exact h3

/-- C2 witness: a concrete device listing, and a concrete kept line with a
nonempty token list. -/
theorem claim_C2_witness :
    (on_device_check true "List of devices attached\nemulator-5554\tdevice"
        = "✅ Found device: emulator-5554") ∧
    pyWords "emulator-5554\tdevice" ≠ [] :=
  ⟨by decide, (claim_C2_device_scan "").2.2 "emulator-5554\tdevice" (by decide)⟩

/-- C3 counterexample: with ADB path "adb", the user actions of the window
produce five distinct command lines, not four. -/
theorem claim_C3_counterexample :
    ¬ ((allActions.map (commandOf "adb")).dedup.length = 4) := by decide

/-- The five command lines the program can start, for a given ADB path:
the four media keyevent commands and the device-list command. -/
def fiveCommands (adb : String) : List (List String) :=
  [ [adb, "shell", "input", "keyevent", "88"],
    [adb, "shell", "input", "keyevent", "85"],
    [adb, "shell", "input", "keyevent", "87"],
    [adb, "shell", "input", "keyevent", "86"],
    [adb, "devices"] ]

/-- C3 (amended): the program issues exactly five distinct hardcoded
command lines - the four media keyevent commands plus the device-list
command: every user action produces one of the five, the five are
pairwise distinct, each of the five is produced by some action, and the
deduplicated list of all producible commands has length five. -/
theorem claim_C3_five_commands (adb : String) :
    (∀ a, commandOf adb a ∈ fiveCommands adb) ∧
    (fiveCommands adb).Nodup ∧
    (commandOf adb .btnPrev = [adb, "shell", "input", "keyevent", "88"] ∧
      commandOf adb .btnPlay = [adb, "shell", "input", "keyevent", "85"] ∧
      commandOf adb .btnNext = [adb, "shell", "input", "keyevent", "87"] ∧
      commandOf adb .btnStop = [adb, "shell", "input", "keyevent", "86"] ∧
      commandOf adb .btnCheck = [adb, "devices"]) ∧
    (allActions.map (commandOf "adb")).dedup.length = 5 := by
  refine ⟨?_, ?_, ⟨rfl, rfl, rfl, rfl, rfl⟩, by decide⟩
  · intro a
    cases a <;> simp [commandOf, sendKeyArgs, fiveCommands]
  · simp [fiveCommands]

/-- C4: every media-key action (each of the four buttons and each keyboard
shortcut) builds the fixed command line with its fixed keycode: 88 for
PREVIOUS, 85 for PLAY_PAUSE, 87 for NEXT, 86 for STOP; only the keycode
distinguishes them. -/
theorem claim_C4_media_commands (adb : String) :
    commandOf adb .btnPrev = [adb, "shell", "input", "keyevent", "88"] ∧
    commandOf adb .keyLeft = [adb, "shell", "input", "keyevent", "88"] ∧
    commandOf adb .btnPlay = [adb, "shell", "input", "keyevent", "85"] ∧
    commandOf adb .keySpace = [adb, "shell", "input", "keyevent", "85"] ∧
    commandOf adb .btnNext = [adb, "shell", "input", "keyevent", "87"] ∧
    commandOf adb .keyRight = [adb, "shell", "input", "keyevent", "87"] ∧
    commandOf adb .btnStop = [adb, "shell", "input", "keyevent", "86"] :=
  ⟨rfl, rfl, rfl, rfl, rfl, rfl, rfl⟩

/-- C5: the worker's only subprocess invocation carries a 5 second
timeout, and on expiry the worker emits failure with exactly the message
"Timeout - check device" instead of raising. -/
theorem claim_C5_timeout (c : List String) :
    (workerCall c).timeoutSecs = 5 ∧
    AdbWorker.runEmits .timeoutExpired = [(false, "Timeout - check device")] :=
  ⟨rfl, rfl⟩

/-- C6 counterexample: with two overlapping actions (play/pause, then
check-device), the check finishes first and sets a terminal message; the
late finish of the earlier play/pause worker then changes the status
without any new user action - so the claimed three-state machine with no
other transitions does not hold. -/
theorem claim_C6_counterexample :
    (runTrace [.act .btnPlay, .act .btnCheck, .fin 1 (.completed 0 "ok" "")]).status
        = "❌ No device found. Enable USB debugging!" ∧
    (runTrace [.act .btnPlay, .act .btnCheck, .fin 1 (.completed 0 "ok" ""),
        .fin 0 (.completed 0 "" "")]).status = "✅ Sent: KEYCODE_MEDIA_PLAY_PAUSE" ∧
    ("❌ No device found. Enable USB debugging!" : String)
        ≠ "✅ Sent: KEYCODE_MEDIA_PLAY_PAUSE" :=
  ⟨by decide, by decide, by decide⟩

/-- C6 (amended): every user action first sets its sending message
("Sending NAME..." or "Checking device..."), and every delivery of a
started worker's finished signal sets exactly the terminal message of the
handler connected to that worker; when actions do not overlap - each
started worker's finish is delivered before the next user action - the
label follows idle to sending to done exactly, ending on the terminal
message of the last action, and a terminal message changes only on a new
user action; with overlapping actions the late delivery of an earlier
worker's handler may also overwrite a terminal message. -/
theorem claim_C6_status_machine :
    (∀ s a, (step s (.act a)).status = sendingText a) ∧
    (∀ (s : GuiState) i r, i < s.started.length → i ∉ s.delivered →
      (step s (.fin i r)).status = handlerText (s.started.getD i .btnCheck) r) ∧
    (∀ ps a r, (runTrace (seqTrace 0 (ps ++ [(a, r)]))).status = handlerText a r) := by
  refine ⟨fun s a => rfl, ?_, ?_⟩
  · intro s i r hi hd
    simp only [step]
    rw [if_pos ⟨hi, hd⟩]
  · intro ps a r
    exact runSeq_status a r ps 0 initState rfl rfl

/-- C6 witness: delivering the finish of the one started worker sets its
handler's terminal message. -/
theorem claim_C6_witness :
    (step ⟨"x", some 0, [.btnPlay], []⟩ (.fin 0 .timeoutExpired)).status
      = "❌ Error: Timeout - check device" :=
  (claim_C6_status_machine.2.1 ⟨"x", some 0, [.btnPlay], []⟩ 0 .timeoutExpired
      (by decide) (by decide)).trans (by decide)

/-- C7: the window keeps a single worker reference; every user action
overwrites it with the fresh worker it starts, while all previously
started workers stay started (nothing is waited on, joined or cancelled)
and no pending delivery is consumed; finish events never touch the
reference or the started list. -/
theorem claim_C7_fire_and_forget (s : GuiState) (a : UserAction) (i : Nat) (r : ProcResult) :
    (step s (.act a)).workerRef = some s.started.length ∧
    (step s (.act a)).started = s.started ++ [a] ∧
    (step s (.act a)).delivered = s.delivered ∧
    (step s (.fin i r)).started = s.started ∧
    (step s (.fin i r)).workerRef = s.workerRef := by
  refine ⟨rfl, rfl, rfl, ?_, ?_⟩ <;> (simp only [step]; split <;> rfl)

/-- C8: AdbWorker.run is total at its interface - for every subprocess
outcome it emits exactly one finished signal: (true, stdout) on exit code
0, (false, stripped stderr) on a nonzero exit code, (false, "ADB not
found!") when the executable is missing, (false, "Timeout - check
device") on timeout, and (false, the exception text) otherwise. -/
theorem claim_C8_run_total (rc : Int) (out err e : String) :
    (rc = 0 → AdbWorker.runEmits (.completed rc out err) = [(true, out)]) ∧
    (rc ≠ 0 → AdbWorker.runEmits (.completed rc out err) = [(false, pyStrip err)]) ∧
    AdbWorker.runEmits .fileNotFound = [(false, "ADB not found!")] ∧
    AdbWorker.runEmits .timeoutExpired = [(false, "Timeout - check device")] ∧
    AdbWorker.runEmits (.otherError e) = [(false, e)] ∧
    (∀ r, (AdbWorker.runEmits r).length = 1) := by
  refine ⟨?_, ?_, rfl, rfl, rfl, ?_⟩
  · intro h; simp [AdbWorker.runEmits, h]
  · intro h; simp [AdbWorker.runEmits, h]
  · intro r
    cases r with
    | completed rc2 out2 err2 => by_cases h : rc2 == 0 <;> simp [AdbWorker.runEmits, h]
    | fileNotFound => rfl
    | timeoutExpired => rfl
    | otherError e2 => rfl

/-- C8 witness: concrete instances of the two completion branches. -/
theorem claim_C8_witness :
    AdbWorker.runEmits (.completed 0 "out" "") = [(true, "out")] ∧
    AdbWorker.runEmits (.completed 1 "" "boom") = [(false, pyStrip "boom")] :=
  ⟨(claim_C8_run_total 0 "out" "" "x").1 rfl,
   (claim_C8_run_total 1 "" "boom" "x").2.1 (by decide)⟩

/-- C9: each keyboard shortcut passes exactly the same (keycode, name)
arguments to send_key as its button - Left and PREV give (88, PREVIOUS),
Space and PLAY/PAUSE give (85, PLAY_PAUSE), Right and NEXT give
(87, NEXT) - so shortcut and button produce identical commands, identical
sending text and identical terminal text; no shortcut carries the STOP
arguments (86, STOP). -/
theorem claim_C9_shortcuts (adb : String) (r : ProcResult) :
    sendKeyArgs .keyLeft = sendKeyArgs .btnPrev ∧
    sendKeyArgs .keyLeft = some ("88", "PREVIOUS") ∧
    sendKeyArgs .keySpace = sendKeyArgs .btnPlay ∧
    sendKeyArgs .keySpace = some ("85", "PLAY_PAUSE") ∧
    sendKeyArgs .keyRight = sendKeyArgs .btnNext ∧
    sendKeyArgs .keyRight = some ("87", "NEXT") ∧
    commandOf adb .keyLeft = commandOf adb .btnPrev ∧
    commandOf adb .keySpace = commandOf adb .btnPlay ∧
    commandOf adb .keyRight = commandOf adb .btnNext ∧
    sendingText .keyLeft = sendingText .btnPrev ∧
    sendingText .keySpace = sendingText .btnPlay ∧
    sendingText .keyRight = sendingText .btnNext ∧
    handlerText .keyLeft r = handlerText .btnPrev r ∧
    handlerText .keySpace r = handlerText .btnPlay r ∧
    handlerText .keyRight r = handlerText .btnNext r ∧
    sendKeyArgs .keyLeft ≠ some ("86", "STOP") ∧
    sendKeyArgs .keyRight ≠ some ("86", "STOP") ∧
    sendKeyArgs .keySpace ≠ some ("86", "STOP") := by
  refine ⟨rfl, rfl, rfl, rfl, rfl, rfl, rfl, rfl, rfl, rfl, rfl, rfl,
    rfl, rfl, rfl, by decide, by decide, by decide⟩

/-- C10: find_adb returns the first of its four candidate paths that is a
nonempty string and exists on the filesystem, with the literal "adb" as
fallback when none passes; in every environment the result is nonempty. -/
theorem claim_C10_find_adb (env : String → String) (fsOk : String → Bool) :
    (possible_paths env).length = 4 ∧
    find_adb env fsOk
      = ((possible_paths env).find? (fun p => p != "" && fsOk p)).getD "adb" ∧
    find_adb env fsOk ≠ "" := by
  refine ⟨rfl, findAdbLoop_eq_find? _ _, ?_⟩
  rw [find_adb, findAdbLoop_eq_find?]
  cases hf : (possible_paths env).find? (fun p => p != "" && fsOk p) with
  | none => simp
  | some p =>
    have hmem := List.find?_some hf
    have hp : p ≠ "" := bne_iff_ne.mp ((Bool.and_eq_true _ _).mp hmem).1
    simpa using hp

end MediaSim
